import Mathlib

/-!
Verification of the FOSS-Deck pairing/authentication/session core.

The definitions below are a shallow embedding of the Rust sources
src/pc-server/src/server/rate_limit.rs, pairing.rs, auth_store.rs and
ws.rs.  Rust Instant values are modelled as natural numbers counting
seconds; every operation that reads the clock takes the current reading
as an explicit argument.  The external SHA-256 hash, the random token
generator and the clock-derived pairing code (all produced outside the
core, by the sha2 and rand crates and the system clock) are passed in as
parameters.  HashMap is modelled as an association list with
replace-on-insert semantics, which matches its observable behaviour.
-/

namespace FossDeck

/-- Source addresses used as rate-limit keys (std::net::IpAddr). -/
abbrev IpAddr := Nat

/-- Association-list lookup, modelling HashMap::get. -/
def findEntry {κ α : Type} [DecidableEq κ] (k : κ) : List (κ × α) → Option α
  | [] => none
  | (k₁, v) :: rest => if k₁ = k then some v else findEntry k rest

/-- Association-list insert, modelling HashMap::insert (replace on collision). -/
def insertEntry {κ α : Type} [DecidableEq κ] (k : κ) (v : α) :
    List (κ × α) → List (κ × α)
  | [] => [(k, v)]
  | (k₁, v₁) :: rest =>
      if k₁ = k then (k, v) :: rest else (k₁, v₁) :: insertEntry k v rest

/-- Association-list removal, modelling HashMap::remove. -/
def eraseEntry {κ α : Type} [DecidableEq κ] (k : κ) :
    List (κ × α) → List (κ × α)
  | [] => []
  | (k₁, v₁) :: rest =>
      if k₁ = k then rest else (k₁, v₁) :: eraseEntry k rest

/-! ## rate_limit.rs -/

/-- RL_MAX_ATTEMPTS in rate_limit.rs. -/
def RL_MAX_ATTEMPTS : Nat := 5

/-- RL_WINDOW in rate_limit.rs, in seconds. -/
def RL_WINDOW : Nat := 30

/-- RL_LOCKOUT in rate_limit.rs, in seconds. -/
def RL_LOCKOUT : Nat := 30

/-- struct RateLimitEntry of rate_limit.rs. -/
structure RateLimitEntry where
  window_start : Nat
  attempts : Nat
  lockout_until : Option Nat
deriving DecidableEq, Repr

/-- RateLimitEntry::new, taking the Instant::now() reading. -/
def RateLimitEntry.new (now : Nat) : RateLimitEntry :=
  { window_start := now, attempts := 0, lockout_until := none }

/-- RateLimitEntry::is_locked at clock reading now. -/
def RateLimitEntry.is_locked (e : RateLimitEntry) (now : Nat) : Bool :=
  match e.lockout_until with
  | some t => now < t
  | none => false

/-- RateLimitEntry::remaining_lockout_secs at clock reading now. -/
def RateLimitEntry.remaining_lockout_secs (e : RateLimitEntry) (now : Nat) : Nat :=
  match e.lockout_until with
  | some t => if t ≤ now then 0 else t - now
  | none => 0

/-- RateLimitEntry::register_failure at clock reading now. -/
def RateLimitEntry.register_failure (e : RateLimitEntry) (now : Nat) :
    RateLimitEntry :=
  let e₁ := if now - e.window_start > RL_WINDOW then
              { e with window_start := now, attempts := 0 }
            else e
  let e₂ := { e₁ with attempts := e₁.attempts + 1 }
  if RL_MAX_ATTEMPTS ≤ e₂.attempts then
    { e₂ with lockout_until := some (now + RL_LOCKOUT) }
  else e₂

/-- RateLimitEntry::register_success at clock reading now. -/
def RateLimitEntry.register_success (_e : RateLimitEntry) (now : Nat) :
    RateLimitEntry :=
  { window_start := now, attempts := 0, lockout_until := none }

/-! ## auth_store.rs (in-memory view of the store) -/

/-- struct AuthorizedDevice of auth_store.rs. -/
structure AuthorizedDevice where
  name : Option String
  token_hash : String
  added_at : Int
  last_seen : Int
deriving DecidableEq, Repr

/-- struct AuthorizedStore of auth_store.rs; the HashMap is an association list. -/
structure AuthorizedStore where
  devices : List (String × AuthorizedDevice)
deriving DecidableEq, Repr

/-! ## pairing.rs -/

/-- PAIRING_TTL in pairing.rs, in seconds. -/
def PAIRING_TTL : Nat := 300

/-- PAIRING_IDLE_TIMEOUT in pairing.rs, in seconds. -/
def PAIRING_IDLE_TIMEOUT : Nat := 10

/-- struct PairingState of pairing.rs (the store path is not part of the
observable state; filesystem effects are modelled separately). -/
structure PairingState where
  code : String
  created_at : Nat
  active_device_id : Option String
  active_client_ip : Option IpAddr
  last_seen : Option Nat
  store : AuthorizedStore
  rate_limit : List (IpAddr × RateLimitEntry)
deriving DecidableEq, Repr

/-- PairingState::is_expired at clock reading now. -/
def PairingState.is_expired (st : PairingState) (now : Nat) : Bool :=
  now - st.created_at > PAIRING_TTL

/-- PairingState::mark_seen at monotonic reading now and unix reading unow:
sets last_seen unconditionally, then persists last_seen for the active
device if there is one and it is in the store. -/
def PairingState.mark_seen (st : PairingState) (now : Nat) (unow : Int) :
    PairingState :=
  match st.active_device_id with
  | some id =>
      match findEntry id st.store.devices with
      | some dev =>
          { st with last_seen := some now,
                    store :=
                      ⟨insertEntry id { dev with last_seen := unow }
                        st.store.devices⟩ }
      | none => { st with last_seen := some now }
  | none => { st with last_seen := some now }

/-- PairingState::is_idle_too_long at clock reading now. -/
def PairingState.is_idle_too_long (st : PairingState) (now : Nat) : Bool :=
  match st.active_device_id, st.last_seen with
  | some _, some last => now - last > PAIRING_IDLE_TIMEOUT
  | _, _ => false

/-- PairingState::clear_active. -/
def PairingState.clear_active (st : PairingState) : PairingState :=
  { st with active_device_id := none, active_client_ip := none,
            last_seen := none }

/-- PairingState::revoke_device. -/
def PairingState.revoke_device (st : PairingState) (device_id : String) :
    PairingState :=
  let st₁ := { st with store := ⟨eraseEntry device_id st.store.devices⟩ }
  if st₁.active_device_id = some device_id then st₁.clear_active else st₁

/-- PairingState::is_authorized, parameterised by the external SHA-256
hex function of auth_store.rs. -/
def PairingState.is_authorized (sha : String → String) (st : PairingState)
    (device_id token : String) : Bool :=
  match findEntry device_id st.store.devices with
  | some d => d.token_hash = sha token
  | none => false

/-- PairingState::upsert_authorized at unix reading unow. -/
def PairingState.upsert_authorized (st : PairingState) (device_id : String)
    (token_hash : String) (device_name : Option String) (unow : Int) :
    PairingState :=
  { st with store :=
      ⟨insertEntry device_id
        { name := device_name, token_hash := token_hash,
          added_at := unow, last_seen := unow } st.store.devices⟩ }

/-- PairingState::rl_is_locked at clock reading now: looks up the entry,
inserting a fresh one exactly when the source is absent (HashMap entry
or_insert_with), and reports the remaining lockout if locked. -/
def PairingState.rl_is_locked (st : PairingState) (ip : IpAddr) (now : Nat) :
    Option Nat × PairingState :=
  let entry := match findEntry ip st.rate_limit with
               | some e => e
               | none => RateLimitEntry.new now
  let st₁ := match findEntry ip st.rate_limit with
             | some _ => st
             | none => { st with rate_limit := insertEntry ip entry st.rate_limit }
  if entry.is_locked now then
    (some (entry.remaining_lockout_secs now), st₁)
  else (none, st₁)

/-- PairingState::rl_register_success at clock reading now. -/
def PairingState.rl_register_success (st : PairingState) (ip : IpAddr)
    (now : Nat) : PairingState :=
  let entry := match findEntry ip st.rate_limit with
               | some e => e
               | none => RateLimitEntry.new now
  { st with rate_limit := insertEntry ip (entry.register_success now) st.rate_limit }

/-- PairingState::rl_register_failure at clock reading now. -/
def PairingState.rl_register_failure (st : PairingState) (ip : IpAddr)
    (now : Nat) : PairingState :=
  let entry := match findEntry ip st.rate_limit with
               | some e => e
               | none => RateLimitEntry.new now
  { st with rate_limit := insertEntry ip (entry.register_failure now) st.rate_limit }

/-! ## ws.rs: per-connection message handling -/

/-- Classification of an inbound text frame after serde parsing in ws.rs:
the Auth and Pair variants of WsCommand, any other successfully parsed
command (opaque device control), or a parse failure. -/
inductive InMsg where
  | auth (device_id token : String)
  | pair (code device_id : String) (device_name : Option String)
  | cmd
  | badJson
deriving DecidableEq, Repr

/-- The JSON replies produced by handle_ws, by type tag and reason. -/
inductive Reply where
  | authError (reason : String)
  | authOk
  | pairingError (reason : String)
  | pairingOk (token : String)
  | rateLimited (reason : String) (retry_after_secs : Nat)
  | errorReply (reason : String)
  | cmdReply
deriving DecidableEq, Repr

/-- The connection-local variables of handle_ws: authenticated and
authed_device_id. -/
structure ConnState where
  authenticated : Bool
  authed_device_id : Option String
deriving DecidableEq, Repr

/-- The block at the end of the handle_ws receive loop: if authenticated,
ensure the active session still matches this device (demotes only when
both the active id and the claimed id are present and differ). -/
def revalidate (conn : ConnState) (st : PairingState) : ConnState :=
  if conn.authenticated then
    match st.active_device_id, conn.authed_device_id with
    | some active, some me =>
        if active ≠ me then { authenticated := false, authed_device_id := none }
        else conn
    | _, _ => conn
  else conn

/-- One iteration of the handle_ws receive loop on a parsed message:
computes the reply, the updated connection-local state and the updated
shared PairingState.  Parameters: sha is the external SHA-256 hex
function, gen_code the pairing code a rotation would install (clock
derived), gen_token the random token a successful pairing would issue,
execResult the outcome of the opaque handle_command call, remote_ip the
socket peer, now the Instant reading and unow the unix reading. -/
def handle_msg (sha : String → String) (gen_code gen_token : String)
    (execResult : Except Unit Reply) (remote_ip : Option IpAddr)
    (now : Nat) (unow : Int) (msg : InMsg) (conn : ConnState)
    (st : PairingState) : Reply × ConnState × PairingState :=
  let step : Reply × ConnState × PairingState :=
    match msg with
    | .auth device_id token =>
        match remote_ip with
        | none => (.authError "no_remote_ip", conn, st)
        | some ip =>
            let gate := st.rl_is_locked ip now
            match gate.1 with
            | some rem => (.rateLimited "auth" rem, conn, gate.2)
            | none =>
                let st₁ := gate.2
                if st₁.is_authorized sha device_id token then
                  let st₂ := st₁.rl_register_success ip now
                  let st₃ := { st₂ with active_device_id := some device_id,
                                        active_client_ip := some ip }
                  (.authOk, ⟨true, some device_id⟩, st₃.mark_seen now unow)
                else
                  (.authError "invalid_token", ⟨false, none⟩,
                    st₁.rl_register_failure ip now)
    | .pair code device_id device_name =>
        match remote_ip with
        | none => (.pairingError "no_remote_ip", conn, st)
        | some ip =>
            let gate := st.rl_is_locked ip now
            match gate.1 with
            | some rem => (.rateLimited "pair" rem, conn, gate.2)
            | none =>
                let st₁ := gate.2
                let st₂ := if st₁.is_expired now ∧ st₁.active_device_id = none
                           then { st₁ with code := gen_code, created_at := now }
                           else st₁
                if st₂.code ≠ code then
                  (.pairingError "invalid_code", conn,
                    st₂.rl_register_failure ip now)
                else
                  let st₃ := st₂.rl_register_success ip now
                  let token := gen_token
                  let st₄ := st₃.upsert_authorized device_id (sha token)
                               device_name unow
                  let st₅ := { st₄ with active_device_id := some device_id,
                                        active_client_ip := some ip }
                  (.pairingOk token, ⟨true, some device_id⟩,
                    st₅.mark_seen now unow)
    | .cmd =>
        if !conn.authenticated then
          (.errorReply "not_authenticated", conn, st)
        else
          let st₁ := st.mark_seen now unow
          match execResult with
          | .ok v => (v, conn, st₁)
          | .error _ => (.errorReply "command_failed", conn, st₁)
    | .badJson => (.errorReply "bad_request", conn, st)
  (step.1, revalidate step.2.1 step.2.2, step.2.2)

/-- One pass of the idle watchdog task spawned in run_ws_server: clears
the active session when it has been idle too long. -/
def watchdog_step (st : PairingState) (now : Nat) : PairingState :=
  if st.is_idle_too_long now then st.clear_active else st

/-! ## auth_store.rs: persistence model for save_store -/

/-- Filesystem operations a save can perform; a rename is atomic, a
write of file contents is not. -/
inductive FsOp where
  | write (path contents : String)
  | rename (src dst : String)
deriving DecidableEq, Repr

/-- save_store of auth_store.rs as the sequence of filesystem operations
it performs: serde serialization (the ser parameter) followed by a
single direct fs::write of the whole contents to the store path.  There
is no temporary file and no rename in the source. -/
def save_store (ser : AuthorizedStore → String) (path : String)
    (store : AuthorizedStore) : List FsOp :=
  [FsOp.write path (ser store)]

/-- save_store as it appears in the historical snapshot src/server.rs:
write the whole serialization to a temporary path, then atomically
rename it over the store path. -/
def save_store_snapshot (ser : AuthorizedStore → String) (path tmp : String)
    (store : AuthorizedStore) : List FsOp :=
  [FsOp.write tmp (ser store), FsOp.rename tmp path]

/-- Applying one completed filesystem operation to a filesystem, which
is a mapping from path to contents. -/
def applyOp (fs : List (String × String)) : FsOp → List (String × String)
  | .write p c => insertEntry p c fs
  | .rename src dst =>
      match findEntry src fs with
      | some c => insertEntry dst c (eraseEntry src fs)
      | none => fs

/-- The filesystems observable if the process crashes somewhere during
one operation: a crash around a rename sees the old or the new
filesystem (rename is atomic), while a crash during a write can leave
any truncation of the new contents in the file. -/
def crashDuring (fs : List (String × String)) : FsOp → List (List (String × String))
  | .write p c =>
      (List.range (c.length + 1)).map (fun k => insertEntry p (c.take k) fs)
  | .rename _ _ => []

/-- All filesystems observable if the process crashes at any point while
executing a sequence of operations. -/
def crashStates (fs : List (String × String)) :
    List FsOp → List (List (String × String))
  | [] => [fs]
  | op :: rest => fs :: crashDuring fs op ++ crashStates (applyOp fs op) rest

/-! ## pairing.rs: generate_pairing_code -/

/-- The digit-extraction loop of generate_pairing_code: pushes the low
decimal digit and divides, six times, yielding least-significant first. -/
def pairingDigits : Nat → Nat → List Nat
  | _, 0 => []
  | n, k + 1 => n % 10 :: pairingDigits (n / 10) k

/-- generate_pairing_code of pairing.rs at clock reading secs: reduce the
unix time modulo one million, extract six decimal digits, reverse them
and map each to an ASCII digit character. -/
def generate_pairing_code (secs : Nat) : String :=
  let n := secs % 1000000
  String.mk ((pairingDigits n 6).reverse.map (fun d => Char.ofNat (48 + d)))

/-- The zero-padded six-character decimal representation of a number
below one million, written positionally (spec-side definition used to
state what generate_pairing_code produces). -/
def padDecimal6 (m : Nat) : String :=
  String.mk [Char.ofNat (48 + m / 100000 % 10), Char.ofNat (48 + m / 10000 % 10),
             Char.ofNat (48 + m / 1000 % 10), Char.ofNat (48 + m / 100 % 10),
             Char.ofNat (48 + m / 10 % 10), Char.ofNat (48 + m % 10)]

/-- Reading a six-digit string back as a decimal number. -/
def decodeDecimal (s : String) : Nat :=
  s.toList.foldl (fun acc c => acc * 10 + (c.toNat - 48)) 0

/-! ## Invariants and concrete fixtures -/

/-- PairingState::new at clock reading now, with the store the
constructor loads from disk passed as a parameter. -/
def PairingState.new (code : String) (now : Nat) (store : AuthorizedStore) :
    PairingState :=
  { code := code, created_at := now, active_device_id := none,
    active_client_ip := none, last_seen := none, store := store,
    rate_limit := [] }

/-- The single-active-session invariant stated in the specification:
a device id is recorded exactly when a last-seen timestamp is. -/
def sessionInv (st : PairingState) : Prop :=
  st.active_device_id.isSome = st.last_seen.isSome

instance sessionInvDecidable (st : PairingState) : Decidable (sessionInv st) :=
  inferInstanceAs (Decidable (_ = _))

/-- A concrete stand-in for the external sha2 SHA-256 hex function, used
only to instantiate traces; every statement that depends on hashing
quantifies over the hash function. -/
def concreteHash : String → String := fun s => s ++ "#"

/-- Fixture: a successful pairing of device A from source 7 at time 1,
on a fresh server state whose pairing code is 123456. -/
def demoPair : Reply × ConnState × PairingState :=
  handle_msg concreteHash "999999" "TOK" (.ok .cmdReply) (some 7) 1 1
    (.pair "123456" "A" none) ⟨false, none⟩ (PairingState.new "123456" 0 ⟨[]⟩)

/-- Fixture: the watchdog runs at time 12, eleven seconds after the last
heartbeat, and clears the active session. -/
def demoExpired : PairingState := watchdog_step demoPair.2.2 12

/-- Fixture: the same connection then sends a device-control command at
time 13, after the watchdog has cleared the session. -/
def demoCmd : Reply × ConnState × PairingState :=
  handle_msg concreteHash "999999" "TOK" (.ok .cmdReply) (some 7) 13 13
    .cmd demoPair.2.1 demoExpired

/-- Fixture: a further device-control command from the same connection
at time 14. -/
def demoCmd2 : Reply × ConnState × PairingState :=
  handle_msg concreteHash "999999" "TOK" (.ok .cmdReply) (some 7) 14 14
    .cmd demoCmd.2.1 demoCmd.2.2

/-- Scenario fixture for the rate-limit spec scenario: pairing of device
A with code 123456 from source 7 at time 1, parameterised by the hash
function and the issued token. -/
def c3Pair (sha : String → String) (T : String) :
    Reply × ConnState × PairingState :=
  handle_msg sha "999999" T (.error ()) (some 7) 1 1
    (.pair "123456" "A" none) ⟨false, none⟩ (PairingState.new "123456" 0 ⟨[]⟩)

/-- Scenario fixture: an auth message for device A with the given token
from source 7 at time t, continuing from the given step outcome. -/
def c3Auth (sha : String → String) (tok : String) (t : Nat)
    (x : Reply × ConnState × PairingState) :
    Reply × ConnState × PairingState :=
  handle_msg sha "999999" "X" (.error ()) (some 7) t t
    (.auth "A" tok) x.2.1 x.2.2

/-- Scenario: first wrong-token auth, at time 2. -/
def c3A1 (sha : String → String) (T : String) := c3Auth sha "wrong" 2 (c3Pair sha T)

/-- Scenario: second wrong-token auth, at time 3. -/
def c3A2 (sha : String → String) (T : String) := c3Auth sha "wrong" 3 (c3A1 sha T)

/-- Scenario: third wrong-token auth, at time 4. -/
def c3A3 (sha : String → String) (T : String) := c3Auth sha "wrong" 4 (c3A2 sha T)

/-- Scenario: fourth wrong-token auth, at time 5. -/
def c3A4 (sha : String → String) (T : String) := c3Auth sha "wrong" 5 (c3A3 sha T)

/-- Scenario: fifth wrong-token auth, at time 6. -/
def c3A5 (sha : String → String) (T : String) := c3Auth sha "wrong" 6 (c3A4 sha T)

/-- Scenario: correct-token auth while the lockout is still running, at
time 7. -/
def c3A6 (sha : String → String) (T : String) := c3Auth sha T 7 (c3A5 sha T)

/-- Scenario: correct-token auth at time 36, when the lockout set at
time 6 has elapsed. -/
def c3A7 (sha : String → String) (T : String) := c3Auth sha T 36 (c3A6 sha T)

/-! ## Helper lemmas about the association-list model -/

theorem findEntry_insertEntry_self {κ α : Type} [DecidableEq κ] (k : κ) (v : α)
    (l : List (κ × α)) : findEntry k (insertEntry k v l) = some v := by
  induction l with
  | nil => simp [insertEntry, findEntry]
  | cons hd tl ih =>
      obtain ⟨k₁, v₁⟩ := hd
      by_cases h : k₁ = k <;> simp [insertEntry, findEntry, h, ih]

theorem findEntry_insertEntry_ne {κ α : Type} [DecidableEq κ] {k k₂ : κ}
    (v : α) (l : List (κ × α)) (h : k₂ ≠ k) :
    findEntry k (insertEntry k₂ v l) = findEntry k l := by
  induction l with
  | nil => simp [insertEntry, findEntry, h]
  | cons hd tl ih =>
      obtain ⟨k₁, v₁⟩ := hd
      by_cases h₁ : k₁ = k₂
      · subst h₁; simp [insertEntry, findEntry, h]
      · simp [insertEntry, findEntry, h₁, ih]

theorem findEntry_eq_none_of_not_mem {κ α : Type} [DecidableEq κ] (k : κ)
    (l : List (κ × α)) (h : k ∉ l.map Prod.fst) : findEntry k l = none := by
  induction l with
  | nil => simp [findEntry]
  | cons hd tl ih =>
      obtain ⟨k₁, v₁⟩ := hd
      simp only [List.map_cons, List.mem_cons] at h
      push_neg at h
      have hne : ¬ k₁ = k := fun hh => h.1 hh.symm
      simp [findEntry, hne, ih h.2]

theorem findEntry_eraseEntry_self {κ α : Type} [DecidableEq κ] (k : κ)
    (l : List (κ × α)) (hnd : (l.map Prod.fst).Nodup) :
    findEntry k (eraseEntry k l) = none := by
  induction l with
  | nil => simp [eraseEntry, findEntry]
  | cons hd tl ih =>
      obtain ⟨k₁, v₁⟩ := hd
      simp only [List.map_cons, List.nodup_cons] at hnd
      by_cases h : k₁ = k
      · subst h
        simpa [eraseEntry] using findEntry_eq_none_of_not_mem k₁ tl hnd.1
      · simp [eraseEntry, findEntry, h, ih hnd.2]

theorem findEntry_eraseEntry_ne {κ α : Type} [DecidableEq κ] {k k₂ : κ}
    (l : List (κ × α)) (h : k₂ ≠ k) :
    findEntry k (eraseEntry k₂ l) = findEntry k l := by
  induction l with
  | nil => simp [eraseEntry]
  | cons hd tl ih =>
      obtain ⟨k₁, v₁⟩ := hd
      by_cases h₁ : k₁ = k₂
      · subst h₁; simp [eraseEntry, findEntry, h]
      · simp [eraseEntry, findEntry, h₁, ih]

/-! ## Helper lemmas about PairingState operations -/

theorem mark_seen_shape (st : PairingState) (now : Nat) (unow : Int) :
    ∃ devs, st.mark_seen now unow =
      { st with last_seen := some now, store := ⟨devs⟩ } := by
  unfold PairingState.mark_seen
  split
  · split
    · exact ⟨_, rfl⟩
    · exact ⟨st.store.devices, rfl⟩
  · exact ⟨st.store.devices, rfl⟩

theorem mark_seen_active (st : PairingState) (now : Nat) (unow : Int) :
    (st.mark_seen now unow).active_device_id = st.active_device_id := by
  obtain ⟨devs, h⟩ := mark_seen_shape st now unow
  rw [h]

theorem mark_seen_last_seen (st : PairingState) (now : Nat) (unow : Int) :
    (st.mark_seen now unow).last_seen = some now := by
  obtain ⟨devs, h⟩ := mark_seen_shape st now unow
  rw [h]

theorem mark_seen_code (st : PairingState) (now : Nat) (unow : Int) :
    (st.mark_seen now unow).code = st.code := by
  obtain ⟨devs, h⟩ := mark_seen_shape st now unow
  rw [h]

theorem mark_seen_created_at (st : PairingState) (now : Nat) (unow : Int) :
    (st.mark_seen now unow).created_at = st.created_at := by
  obtain ⟨devs, h⟩ := mark_seen_shape st now unow
  rw [h]

theorem rl_is_locked_snd (st : PairingState) (ip : IpAddr) (now : Nat) :
    (st.rl_is_locked ip now).2 =
      if (findEntry ip st.rate_limit).isSome then st
      else { st with
              rate_limit := insertEntry ip (RateLimitEntry.new now) st.rate_limit } := by
  unfold PairingState.rl_is_locked
  rcases h : findEntry ip st.rate_limit with _ | e <;> simp [h] <;> split <;> rfl

/-! ## Claim theorems -/

/-- C1, counterexample: after a successful pairing (which satisfies the
session invariant) the watchdog clears the idle session at time 12, and
the still-authenticated connection then sends a command at time 13; the
command-path mark_seen sets last_seen while active_device_id stays none,
so the invariant active_device_id.is_some() == last_seen.is_some() does
not hold after that operation. -/
theorem C1_counterexample :
    decide (sessionInv demoPair.2.2) = true ∧
    decide (sessionInv demoExpired) = true ∧
    demoExpired.active_device_id = none ∧
    demoCmd.2.2.active_device_id = none ∧
    demoCmd.2.2.last_seen = some 13 ∧
    decide (sessionInv demoCmd.2.2) = false := by
  decide

/-- C2, counterexample: the connection paired as device A and is locally
Authenticated; the watchdog then expires the session, so the active
device id is none; processing a further command does not demote the
connection (it stays authenticated with claimed id A) and both that
command and the next one are executed and answered with the command
reply rather than being rejected. -/
theorem C2_counterexample :
    demoPair.2.1 = ⟨true, some "A"⟩ ∧
    demoExpired.active_device_id = none ∧
    demoCmd.2.1 = ⟨true, some "A"⟩ ∧
    demoCmd.1 = Reply.cmdReply ∧
    demoCmd2.1 = Reply.cmdReply := by
  decide

/-- C3, counterexample: in the spec scenario (successful pairing at time
1 resetting the rate-limit entry, then five wrong-token auth messages
from the same source within the rolling window) the reply to the fifth
wrong auth message is the invalid-token auth error, not rate_limited:
the gate is checked before the fifth failure is registered, so the
lockout only affects the messages after the fifth. -/
theorem C3_counterexample :
    (c3Pair concreteHash "TOK").1 = Reply.pairingOk "TOK" ∧
    (c3A5 concreteHash "TOK").1 = Reply.authError "invalid_token" := by
  decide

/-- C4: save_store in auth_store.rs serializes the whole mapping but
performs a single direct write to the store file, with no temporary
location and no rename; consequently a crash during the write can leave
the store file holding a truncation that is neither the old nor the new
contents.  The save_store of the historical snapshot src/server.rs,
which does write to a temp path and rename, never exposes such a state. -/
theorem C4_save_store_not_atomic :
    save_store (fun _ => "NEWCONTENT") "authorized.json" ⟨[]⟩ =
      [FsOp.write "authorized.json" "NEWCONTENT"] ∧
    insertEntry "authorized.json" "NEWCO" [("authorized.json", "OLD")] ∈
      crashStates [("authorized.json", "OLD")]
        (save_store (fun _ => "NEWCONTENT") "authorized.json" ⟨[]⟩) ∧
    findEntry "authorized.json"
        (insertEntry "authorized.json" "NEWCO" [("authorized.json", "OLD")]) =
      some "NEWCO" ∧
    decide ("NEWCO" = "OLD") = false ∧
    decide ("NEWCO" = "NEWCONTENT") = false ∧
    ((crashStates [("authorized.json", "OLD")]
        (save_store_snapshot (fun _ => "NEWCONTENT") "authorized.json"
          "authorized.json.tmp" ⟨[]⟩)).all
      (fun fs => decide (findEntry "authorized.json" fs = some "OLD") ||
                 decide (findEntry "authorized.json" fs = some "NEWCONTENT"))) =
      true := by
  decide

/-- C5: starting from a fresh rate-limit entry, five register_failure
calls whose times all fall within the 30-second rolling window leave the
entry locked at the instant of the fifth call; and register_success
resets the entry to zero attempts, a fresh window start and no lockout,
so is_locked is false at every instant afterwards. -/
theorem C5_rate_limit (ws t₁ t₂ t₃ t₄ t₅ s w : Nat) (e : RateLimitEntry)
    (h₁ : t₁ ≤ ws + RL_WINDOW) (h₂ : t₂ ≤ ws + RL_WINDOW)
    (h₃ : t₃ ≤ ws + RL_WINDOW) (h₄ : t₄ ≤ ws + RL_WINDOW)
    (h₅ : t₅ ≤ ws + RL_WINDOW) :
    (((((((RateLimitEntry.new ws).register_failure t₁).register_failure
        t₂).register_failure t₃).register_failure t₄).register_failure
        t₅).is_locked t₅) = true ∧
    (e.register_success s).attempts = 0 ∧
    (e.register_success s).window_start = s ∧
    (e.register_success s).lockout_until = none ∧
    (e.register_success s).is_locked w = false := by
  have n₁ : ¬ (t₁ - ws > RL_WINDOW) := by unfold RL_WINDOW at *; omega
  have n₂ : ¬ (t₂ - ws > RL_WINDOW) := by unfold RL_WINDOW at *; omega
  have n₃ : ¬ (t₃ - ws > RL_WINDOW) := by unfold RL_WINDOW at *; omega
  have n₄ : ¬ (t₄ - ws > RL_WINDOW) := by unfold RL_WINDOW at *; omega
  have n₅ : ¬ (t₅ - ws > RL_WINDOW) := by unfold RL_WINDOW at *; omega
  have s₁ : (RateLimitEntry.new ws).register_failure t₁ = ⟨ws, 1, none⟩ := by
    simp [RateLimitEntry.register_failure, RateLimitEntry.new, n₁, RL_MAX_ATTEMPTS]
  have s₂ : (⟨ws, 1, none⟩ : RateLimitEntry).register_failure t₂ = ⟨ws, 2, none⟩ := by
    simp [RateLimitEntry.register_failure, n₂, RL_MAX_ATTEMPTS]
  have s₃ : (⟨ws, 2, none⟩ : RateLimitEntry).register_failure t₃ = ⟨ws, 3, none⟩ := by
    simp [RateLimitEntry.register_failure, n₃, RL_MAX_ATTEMPTS]
  have s₄ : (⟨ws, 3, none⟩ : RateLimitEntry).register_failure t₄ = ⟨ws, 4, none⟩ := by
    simp [RateLimitEntry.register_failure, n₄, RL_MAX_ATTEMPTS]
  have s₅ : (⟨ws, 4, none⟩ : RateLimitEntry).register_failure t₅ =
      ⟨ws, 5, some (t₅ + RL_LOCKOUT)⟩ := by
    simp [RateLimitEntry.register_failure, n₅, RL_MAX_ATTEMPTS]
  refine ⟨?_, rfl, rfl, rfl, rfl⟩
  rw [s₁, s₂, s₃, s₄, s₅]
  simp [RateLimitEntry.is_locked, RL_LOCKOUT]

/-- C5, witness: the lockout and reset behaviour evaluated on a fresh
entry with five failures at times 1 to 5 inside the window that opened
at time 0, and a success on the entry with window start 3, two attempts
and a lockout until 10. -/
theorem C5_rate_limit_witness :
    (((((((RateLimitEntry.new 0).register_failure 1).register_failure
        2).register_failure 3).register_failure 4).register_failure
        5).is_locked 5) = true ∧
    ((⟨3, 2, some 10⟩ : RateLimitEntry).register_success 9).attempts = 0 ∧
    ((⟨3, 2, some 10⟩ : RateLimitEntry).register_success 9).window_start = 9 ∧
    ((⟨3, 2, some 10⟩ : RateLimitEntry).register_success 9).lockout_until = none ∧
    ((⟨3, 2, some 10⟩ : RateLimitEntry).register_success 9).is_locked 11 = false :=
  C5_rate_limit 0 1 2 3 4 5 9 11 ⟨3, 2, some 10⟩ (by decide) (by decide)
    (by decide) (by decide) (by decide)

/-- C10: generate_pairing_code always returns six ASCII decimal digit
characters forming the zero-padded decimal representation of the clock
reading modulo one million: it equals padDecimal6 of that residue, and
reading the string back as a decimal number recovers the residue, so the
code space has at most one million values and the code is a function of
the clock alone. -/
theorem C10_generate_pairing_code (secs : Nat) :
    (generate_pairing_code secs).length = 6 ∧
    ((generate_pairing_code secs).toList.all
      (fun c => decide (48 ≤ c.toNat) && decide (c.toNat ≤ 57))) = true ∧
    generate_pairing_code secs = padDecimal6 (secs % 1000000) ∧
    decodeDecimal (generate_pairing_code secs) = secs % 1000000 := by
  have e₆ : pairingDigits (secs % 1000000) 6 =
      [secs % 1000000 % 10, secs % 1000000 / 10 % 10,
       secs % 1000000 / 10 / 10 % 10, secs % 1000000 / 10 / 10 / 10 % 10,
       secs % 1000000 / 10 / 10 / 10 / 10 % 10,
       secs % 1000000 / 10 / 10 / 10 / 10 / 10 % 10] := rfl
  have d₂ : secs % 1000000 / 10 / 10 = secs % 1000000 / 100 := by
    rw [Nat.div_div_eq_div_mul]
  have d₃ : secs % 1000000 / 100 / 10 = secs % 1000000 / 1000 := by
    rw [Nat.div_div_eq_div_mul]
  have d₄ : secs % 1000000 / 1000 / 10 = secs % 1000000 / 10000 := by
    rw [Nat.div_div_eq_div_mul]
  have d₅ : secs % 1000000 / 10000 / 10 = secs % 1000000 / 100000 := by
    rw [Nat.div_div_eq_div_mul]
  have hgen : generate_pairing_code secs = String.mk
      [Char.ofNat (48 + secs % 1000000 / 100000 % 10),
       Char.ofNat (48 + secs % 1000000 / 10000 % 10),
       Char.ofNat (48 + secs % 1000000 / 1000 % 10),
       Char.ofNat (48 + secs % 1000000 / 100 % 10),
       Char.ofNat (48 + secs % 1000000 / 10 % 10),
       Char.ofNat (48 + secs % 1000000 % 10)] := by
    simp only [generate_pairing_code]
    rw [e₆, d₂, d₃, d₄, d₅]
    rfl
  have hchar : ∀ d : Nat, d < 10 → (Char.ofNat (48 + d)).toNat = 48 + d := by
    intro d hd
    interval_cases d <;> rfl
  have m₀ : secs % 1000000 % 10 < 10 := Nat.mod_lt _ (by norm_num)
  have m₁ : secs % 1000000 / 10 % 10 < 10 := Nat.mod_lt _ (by norm_num)
  have m₂ : secs % 1000000 / 100 % 10 < 10 := Nat.mod_lt _ (by norm_num)
  have m₃ : secs % 1000000 / 1000 % 10 < 10 := Nat.mod_lt _ (by norm_num)
  have m₄ : secs % 1000000 / 10000 % 10 < 10 := Nat.mod_lt _ (by norm_num)
  have m₅ : secs % 1000000 / 100000 % 10 < 10 := Nat.mod_lt _ (by norm_num)
  refine ⟨by rw [hgen]; rfl, ?_, by rw [hgen]; rfl, ?_⟩
  · rw [hgen]
    simp only [String.toList, List.all_cons, List.all_nil, Bool.and_eq_true,
      decide_eq_true_eq, and_true]
    rw [hchar _ m₀, hchar _ m₁, hchar _ m₂, hchar _ m₃, hchar _ m₄, hchar _ m₅]
    omega
  · rw [hgen]
    simp only [decodeDecimal, String.toList, List.foldl_cons, List.foldl_nil]
    rw [hchar _ m₀, hchar _ m₁, hchar _ m₂, hchar _ m₃, hchar _ m₄, hchar _ m₅]
    omega

/-- C6: the rate-limit check rl_is_locked mutates no observable state:
every field other than the rate-limit map is unchanged, the map itself
is unchanged except that a previously unseen source gets the fresh
zero-attempt unlocked entry a new source is defined to have; the check
reports the remaining seconds exactly when now is before the lockout
deadline of the entry the source has (or the fresh entry otherwise); and
repeating the check returns the same answer and the same state. -/
theorem C6_rl_check_no_mutation (st : PairingState) (ip : IpAddr) (now : Nat) :
    ((st.rl_is_locked ip now).2.code = st.code ∧
     (st.rl_is_locked ip now).2.created_at = st.created_at ∧
     (st.rl_is_locked ip now).2.active_device_id = st.active_device_id ∧
     (st.rl_is_locked ip now).2.active_client_ip = st.active_client_ip ∧
     (st.rl_is_locked ip now).2.last_seen = st.last_seen ∧
     (st.rl_is_locked ip now).2.store = st.store) ∧
    (st.rl_is_locked ip now).2.rate_limit =
      (if (findEntry ip st.rate_limit).isSome then st.rate_limit
       else insertEntry ip (RateLimitEntry.new now) st.rate_limit) ∧
    (∀ r : Nat, (st.rl_is_locked ip now).1 = some r ↔
      ∃ t, ((findEntry ip st.rate_limit).getD
              (RateLimitEntry.new now)).lockout_until = some t ∧
           now < t ∧ r = t - now) ∧
    (st.rl_is_locked ip now).2.rl_is_locked ip now = st.rl_is_locked ip now := by
  rcases h : findEntry ip st.rate_limit with _ | e
  · have key : st.rl_is_locked ip now =
        (none, { st with
          rate_limit := insertEntry ip (RateLimitEntry.new now) st.rate_limit }) := by
      unfold PairingState.rl_is_locked
      simp [h, RateLimitEntry.is_locked, RateLimitEntry.new]
    rw [key]
    refine ⟨⟨rfl, rfl, rfl, rfl, rfl, rfl⟩, by simp [h], ?_, ?_⟩
    · intro r
      simp [RateLimitEntry.new]
    · unfold PairingState.rl_is_locked
      simp [findEntry_insertEntry_self, RateLimitEntry.is_locked,
        RateLimitEntry.new]
  · rcases hl : e.lockout_until with _ | t
    · have hlock : e.is_locked now = false := by
        simp [RateLimitEntry.is_locked, hl]
      have key : st.rl_is_locked ip now = (none, st) := by
        unfold PairingState.rl_is_locked
        simp [h, hlock]
      rw [key]
      refine ⟨⟨rfl, rfl, rfl, rfl, rfl, rfl⟩, by simp [h], ?_, ?_⟩
      · intro r
        simp [h, hl]
      · unfold PairingState.rl_is_locked
        simp [h, hlock]
    · by_cases hnt : now < t
      · have hlock : e.is_locked now = true := by
          simp [RateLimitEntry.is_locked, hl, hnt]
        have hrem : e.remaining_lockout_secs now = t - now := by
          simp [RateLimitEntry.remaining_lockout_secs, hl]
          omega
        have key : st.rl_is_locked ip now = (some (t - now), st) := by
          unfold PairingState.rl_is_locked
          simp [h, hlock, hrem]
        rw [key]
        refine ⟨⟨rfl, rfl, rfl, rfl, rfl, rfl⟩, by simp [h], ?_, ?_⟩
        · intro r
          simp [h, hl]
          constructor
          · rintro rfl
            exact ⟨hnt, rfl⟩
          · rintro ⟨_, rfl⟩
            rfl
        · unfold PairingState.rl_is_locked
          simp [h, hlock, hrem]
      · have hlock : e.is_locked now = false := by
          simp [RateLimitEntry.is_locked, hl, hnt]
        have key : st.rl_is_locked ip now = (none, st) := by
          unfold PairingState.rl_is_locked
          simp [h, hlock]
        rw [key]
        refine ⟨⟨rfl, rfl, rfl, rfl, rfl, rfl⟩, by simp [h], ?_, ?_⟩
        · intro r
          simp [h, hl]
          intro h₂
          omega
        · unfold PairingState.rl_is_locked
          simp [h, hlock]

/-- C9: revoke_device removes the device from the store (its lookup
afterwards fails, and other devices are untouched); when the revoked
device held the active session all three session fields are cleared, and
otherwise the session fields are exactly as before. -/
theorem C9_revoke_device (st : PairingState) (D : String)
    (hnd : (st.store.devices.map Prod.fst).Nodup) :
    findEntry D (st.revoke_device D).store.devices = none ∧
    (st.revoke_device D).store.devices = eraseEntry D st.store.devices ∧
    (∀ k, k ≠ D →
      findEntry k (st.revoke_device D).store.devices =
        findEntry k st.store.devices) ∧
    (st.revoke_device D).active_device_id =
      (if st.active_device_id = some D then none else st.active_device_id) ∧
    (st.revoke_device D).active_client_ip =
      (if st.active_device_id = some D then none else st.active_client_ip) ∧
    (st.revoke_device D).last_seen =
      (if st.active_device_id = some D then none else st.last_seen) := by
  have hstore : (st.revoke_device D).store.devices =
      eraseEntry D st.store.devices := by
    unfold PairingState.revoke_device PairingState.clear_active
    by_cases hD : st.active_device_id = some D <;> simp [hD]
  have hact : (st.revoke_device D).active_device_id =
      (if st.active_device_id = some D then none else st.active_device_id) := by
    unfold PairingState.revoke_device PairingState.clear_active
    by_cases hD : st.active_device_id = some D <;> simp [hD]
  have hip : (st.revoke_device D).active_client_ip =
      (if st.active_device_id = some D then none else st.active_client_ip) := by
    unfold PairingState.revoke_device PairingState.clear_active
    by_cases hD : st.active_device_id = some D <;> simp [hD]
  have hls : (st.revoke_device D).last_seen =
      (if st.active_device_id = some D then none else st.last_seen) := by
    unfold PairingState.revoke_device PairingState.clear_active
    by_cases hD : st.active_device_id = some D <;> simp [hD]
  refine ⟨?_, hstore, ?_, hact, hip, hls⟩
  · rw [hstore]
    exact findEntry_eraseEntry_self D _ hnd
  · intro k hk
    rw [hstore]
    exact findEntry_eraseEntry_ne _ (Ne.symm hk)

/-- C9, witness: revocation of the active device A on a concrete state
holding devices A and B: A is gone, B is untouched, and the session
fields are cleared. -/
theorem C9_revoke_device_witness :
    ((([("A", AuthorizedDevice.mk none "h1" 0 1),
        ("B", AuthorizedDevice.mk none "h2" 0 2)] :
        List (String × AuthorizedDevice)).map Prod.fst).Nodup) ∧
    (findEntry "A" ((PairingState.mk "c" 0 (some "A") (some 1) (some 5)
        ⟨[("A", AuthorizedDevice.mk none "h1" 0 1),
          ("B", AuthorizedDevice.mk none "h2" 0 2)]⟩ []).revoke_device
        "A").store.devices = none ∧
     ((PairingState.mk "c" 0 (some "A") (some 1) (some 5)
        ⟨[("A", AuthorizedDevice.mk none "h1" 0 1),
          ("B", AuthorizedDevice.mk none "h2" 0 2)]⟩ []).revoke_device
        "A").store.devices =
       eraseEntry "A" [("A", AuthorizedDevice.mk none "h1" 0 1),
          ("B", AuthorizedDevice.mk none "h2" 0 2)] ∧
     (∀ k, k ≠ "A" →
       findEntry k ((PairingState.mk "c" 0 (some "A") (some 1) (some 5)
          ⟨[("A", AuthorizedDevice.mk none "h1" 0 1),
            ("B", AuthorizedDevice.mk none "h2" 0 2)]⟩ []).revoke_device
          "A").store.devices =
         findEntry k [("A", AuthorizedDevice.mk none "h1" 0 1),
            ("B", AuthorizedDevice.mk none "h2" 0 2)]) ∧
     ((PairingState.mk "c" 0 (some "A") (some 1) (some 5)
        ⟨[("A", AuthorizedDevice.mk none "h1" 0 1),
          ("B", AuthorizedDevice.mk none "h2" 0 2)]⟩ []).revoke_device
        "A").active_device_id =
       (if (some "A" : Option String) = some "A" then none else some "A") ∧
     ((PairingState.mk "c" 0 (some "A") (some 1) (some 5)
        ⟨[("A", AuthorizedDevice.mk none "h1" 0 1),
          ("B", AuthorizedDevice.mk none "h2" 0 2)]⟩ []).revoke_device
        "A").active_client_ip =
       (if (some "A" : Option String) = some "A" then none else some 1) ∧
     ((PairingState.mk "c" 0 (some "A") (some 1) (some 5)
        ⟨[("A", AuthorizedDevice.mk none "h1" 0 1),
          ("B", AuthorizedDevice.mk none "h2" 0 2)]⟩ []).revoke_device
        "A").last_seen =
       (if (some "A" : Option String) = some "A" then none else some 5)) :=
  ⟨by decide,
   C9_revoke_device (PairingState.mk "c" 0 (some "A") (some 1) (some 5)
      ⟨[("A", AuthorizedDevice.mk none "h1" 0 1),
        ("B", AuthorizedDevice.mk none "h2" 0 2)]⟩ []) "A" (by decide)⟩

/-- C7: in a pairing attempt that passed the rate-limit gate, the stored
code and its issue time are replaced by the generated code and the
current instant exactly when the code is expired and no session is
active, and are kept unchanged otherwise; the invalid-code reply is
produced exactly when the presented code differs from the code selected
by that rule. -/
theorem C7_pair_rotation (sha : String → String) (gc gt : String)
    (exec : Except Unit Reply) (conn : ConnState) (st : PairingState)
    (ip : IpAddr) (now : Nat) (unow : Int) (pcode D : String)
    (nm : Option String)
    (hGate : (st.rl_is_locked ip now).1 = none) :
    ((handle_msg sha gc gt exec (some ip) now unow (.pair pcode D nm) conn
        st).2.2.code =
      (if st.is_expired now ∧ st.active_device_id = none then gc
       else st.code)) ∧
    ((handle_msg sha gc gt exec (some ip) now unow (.pair pcode D nm) conn
        st).2.2.created_at =
      (if st.is_expired now ∧ st.active_device_id = none then now
       else st.created_at)) ∧
    ((handle_msg sha gc gt exec (some ip) now unow (.pair pcode D nm) conn
        st).1 = Reply.pairingError "invalid_code" ↔
      (if st.is_expired now ∧ st.active_device_id = none then gc
       else st.code) ≠ pcode) := by
  obtain ⟨R, hR⟩ : ∃ R, (st.rl_is_locked ip now).2 =
      { st with rate_limit := R } := by
    rw [rl_is_locked_snd]
    split
    · exact ⟨st.rate_limit, rfl⟩
    · exact ⟨_, rfl⟩
  simp only [handle_msg, hGate, hR]
  by_cases hrot : st.is_expired now ∧ st.active_device_id = none
  · simp only [PairingState.is_expired] at hrot ⊢
    simp only [hrot.1, hrot.2, and_self, if_true, true_and, if_pos]
    by_cases hc : gc = pcode
    · simp [hc, PairingState.rl_register_success, PairingState.upsert_authorized,
        mark_seen_code, mark_seen_created_at]
    · simp [hc, PairingState.rl_register_failure, mark_seen_code,
        mark_seen_created_at]
  · simp only [PairingState.is_expired] at hrot ⊢
    simp only [hrot, if_false]
    by_cases hc : st.code = pcode
    · simp [hc, PairingState.rl_register_success, PairingState.upsert_authorized,
        mark_seen_code, mark_seen_created_at]
    · simp [hc, PairingState.rl_register_failure, mark_seen_code,
        mark_seen_created_at]

/-- C7, witness: on a fresh unlocked state whose code 123456 was issued
at time 0, a pairing attempt at time 301 (expired, no active session)
that presents the freshly rotated code 999999 sees the rotated code and
succeeds. -/
theorem C7_pair_rotation_witness :
    ((PairingState.new "123456" 0 ⟨[]⟩).rl_is_locked 7 301).1 = none ∧
    (((handle_msg concreteHash "999999" "T" (.ok .cmdReply) (some 7) 301 5
        (.pair "999999" "D1" none) ⟨false, none⟩
        (PairingState.new "123456" 0 ⟨[]⟩)).2.2.code =
      (if (PairingState.new "123456" 0 ⟨[]⟩).is_expired 301 ∧
          (PairingState.new "123456" 0 ⟨[]⟩).active_device_id = none
       then "999999" else "123456")) ∧
    ((handle_msg concreteHash "999999" "T" (.ok .cmdReply) (some 7) 301 5
        (.pair "999999" "D1" none) ⟨false, none⟩
        (PairingState.new "123456" 0 ⟨[]⟩)).2.2.created_at =
      (if (PairingState.new "123456" 0 ⟨[]⟩).is_expired 301 ∧
          (PairingState.new "123456" 0 ⟨[]⟩).active_device_id = none
       then 301 else 0)) ∧
    ((handle_msg concreteHash "999999" "T" (.ok .cmdReply) (some 7) 301 5
        (.pair "999999" "D1" none) ⟨false, none⟩
        (PairingState.new "123456" 0 ⟨[]⟩)).1 =
          Reply.pairingError "invalid_code" ↔
      (if (PairingState.new "123456" 0 ⟨[]⟩).is_expired 301 ∧
          (PairingState.new "123456" 0 ⟨[]⟩).active_device_id = none
       then "999999" else "123456") ≠ "999999")) :=
  ⟨by decide,
   C7_pair_rotation concreteHash "999999" "T" (.ok .cmdReply) ⟨false, none⟩
     (PairingState.new "123456" 0 ⟨[]⟩) 7 301 5 "999999" "D1" none (by decide)⟩

/-- C8: a pairing attempt from an unlocked source presenting the stored,
unexpired code replies pairing_ok carrying the generated token, the
store afterwards holds for that device exactly the hash of that token
(with the given name and unix timestamps), and the resulting server
state depends on the token only through its hash — any token with the
same hash produces the identical post-state, so the plaintext token
lives only in the reply. -/
theorem C8_pair_token_hash (sha : String → String) (gc gt : String)
    (exec : Except Unit Reply) (conn : ConnState) (st : PairingState)
    (ip : IpAddr) (now : Nat) (unow : Int) (D : String) (nm : Option String)
    (hGate : (st.rl_is_locked ip now).1 = none)
    (hexp : st.is_expired now = false) :
    ((handle_msg sha gc gt exec (some ip) now unow (.pair st.code D nm) conn
        st).1 = Reply.pairingOk gt) ∧
    (findEntry D (handle_msg sha gc gt exec (some ip) now unow
        (.pair st.code D nm) conn st).2.2.store.devices =
      some (AuthorizedDevice.mk nm (sha gt) unow unow)) ∧
    (∀ T₂, sha T₂ = sha gt →
      (handle_msg sha gc T₂ exec (some ip) now unow (.pair st.code D nm) conn
        st).2.2 =
      (handle_msg sha gc gt exec (some ip) now unow (.pair st.code D nm) conn
        st).2.2) := by
  obtain ⟨R, hR⟩ : ∃ R, (st.rl_is_locked ip now).2 =
      { st with rate_limit := R } := by
    rw [rl_is_locked_snd]
    split
    · exact ⟨st.rate_limit, rfl⟩
    · exact ⟨_, rfl⟩
  simp only [PairingState.is_expired] at hexp
  refine ⟨?_, ?_, ?_⟩
  · simp [handle_msg, hGate, hR, PairingState.is_expired, hexp]
  · simp [handle_msg, hGate, hR, PairingState.is_expired, hexp,
      PairingState.rl_register_success, PairingState.upsert_authorized,
      PairingState.mark_seen, findEntry_insertEntry_self]
  · intro T₂ hT
    simp only [handle_msg, hGate, hR]
    simp [PairingState.is_expired, hexp, PairingState.rl_register_success,
      PairingState.upsert_authorized, PairingState.mark_seen,
      findEntry_insertEntry_self, hT]

/-- C8, witness: the pairing reply, stored hash and hash-only dependence
evaluated on a fresh state with code 123456 paired by device A at time 1
from source 7. -/
theorem C8_pair_token_hash_witness :
    ((PairingState.new "123456" 0 ⟨[]⟩).rl_is_locked 7 1).1 = none ∧
    (PairingState.new "123456" 0 ⟨[]⟩).is_expired 1 = false ∧
    (((handle_msg concreteHash "999999" "TOK" (.ok .cmdReply) (some 7) 1 1
        (.pair (PairingState.new "123456" 0 ⟨[]⟩).code "A" none) ⟨false, none⟩
        (PairingState.new "123456" 0 ⟨[]⟩)).1 = Reply.pairingOk "TOK") ∧
    (findEntry "A" (handle_msg concreteHash "999999" "TOK" (.ok .cmdReply)
        (some 7) 1 1 (.pair (PairingState.new "123456" 0 ⟨[]⟩).code "A" none)
        ⟨false, none⟩
        (PairingState.new "123456" 0 ⟨[]⟩)).2.2.store.devices =
      some (AuthorizedDevice.mk none (concreteHash "TOK") 1 1)) ∧
    (∀ T₂, concreteHash T₂ = concreteHash "TOK" →
      (handle_msg concreteHash "999999" T₂ (.ok .cmdReply) (some 7) 1 1
        (.pair (PairingState.new "123456" 0 ⟨[]⟩).code "A" none) ⟨false, none⟩
        (PairingState.new "123456" 0 ⟨[]⟩)).2.2 =
      (handle_msg concreteHash "999999" "TOK" (.ok .cmdReply) (some 7) 1 1
        (.pair (PairingState.new "123456" 0 ⟨[]⟩).code "A" none) ⟨false, none⟩
        (PairingState.new "123456" 0 ⟨[]⟩)).2.2)) :=
  ⟨by decide, by decide,
   C8_pair_token_hash concreteHash "999999" "TOK" (.ok .cmdReply)
     ⟨false, none⟩ (PairingState.new "123456" 0 ⟨[]⟩) 7 1 1 "A" none
     (by decide) (by decide)⟩

/-- C1, amended: the session invariant active_device_id.is_some() ==
last_seen.is_some() is preserved by the auth branch, the pair branch,
clear_active, revoke_device and the watchdog step; mark_seen preserves
it when a session is active, but not in general — a command-path
mark_seen issued after the watchdog has cleared the session sets
last_seen with no active device (see the C1 counterexample). -/
theorem C1_session_invariant_amended (sha : String → String) (gc gt : String)
    (exec : Except Unit Reply) (rip : Option IpAddr) (conn : ConnState)
    (st : PairingState) (now : Nat) (unow : Int) (d t c : String)
    (nm : Option String)
    (hInv : sessionInv st) :
    sessionInv ((handle_msg sha gc gt exec rip now unow (.auth d t) conn
      st).2.2) ∧
    sessionInv ((handle_msg sha gc gt exec rip now unow (.pair c d nm) conn
      st).2.2) ∧
    sessionInv st.clear_active ∧
    sessionInv (st.revoke_device d) ∧
    sessionInv (watchdog_step st now) ∧
    (st.active_device_id.isSome = true → sessionInv (st.mark_seen now unow)) := by
  simp only [sessionInv] at hInv
  refine ⟨?_, ?_, ?_, ?_, ?_, ?_⟩
  · rcases rip with _ | ip
    · simpa [handle_msg, sessionInv] using hInv
    · rcases hg : (st.rl_is_locked ip now).1 with _ | rem
      · obtain ⟨R, hR⟩ : ∃ R, (st.rl_is_locked ip now).2 =
            { st with rate_limit := R } := by
          rw [rl_is_locked_snd]
          split
          · exact ⟨st.rate_limit, rfl⟩
          · exact ⟨_, rfl⟩
        by_cases hia :
            ({ st with rate_limit := R } : PairingState).is_authorized sha d t = true
        · simp [handle_msg, hg, hR, hia, sessionInv, mark_seen_active,
            mark_seen_last_seen]
        · simp [handle_msg, hg, hR, hia, sessionInv,
            PairingState.rl_register_failure, hInv]
      · obtain ⟨R, hR⟩ : ∃ R, (st.rl_is_locked ip now).2 =
            { st with rate_limit := R } := by
          rw [rl_is_locked_snd]
          split
          · exact ⟨st.rate_limit, rfl⟩
          · exact ⟨_, rfl⟩
        simp [handle_msg, hg, hR, sessionInv, hInv]
  · rcases rip with _ | ip
    · simpa [handle_msg, sessionInv] using hInv
    · rcases hg : (st.rl_is_locked ip now).1 with _ | rem
      · obtain ⟨R, hR⟩ : ∃ R, (st.rl_is_locked ip now).2 =
            { st with rate_limit := R } := by
          rw [rl_is_locked_snd]
          split
          · exact ⟨st.rate_limit, rfl⟩
          · exact ⟨_, rfl⟩
        by_cases hrot : st.is_expired now ∧ st.active_device_id = none
        · simp only [handle_msg, hg, hR, PairingState.is_expired] at *
          simp only [hrot.1, hrot.2, and_self, if_true, true_and, if_pos]
          by_cases hc : gc = c
          · simp [hc, sessionInv, mark_seen_active, mark_seen_last_seen]
          · rcases hls : st.last_seen with _ | x
            · simp [hc, sessionInv, PairingState.rl_register_failure, hrot.2, hls]
            · rw [hrot.2, hls] at hInv
              simp at hInv
        · simp only [handle_msg, hg, hR, PairingState.is_expired] at *
          simp only [hrot, if_false]
          by_cases hc : st.code = c
          · simp [hc, sessionInv, mark_seen_active, mark_seen_last_seen]
          · simp [hc, sessionInv, PairingState.rl_register_failure, hInv]
      · obtain ⟨R, hR⟩ : ∃ R, (st.rl_is_locked ip now).2 =
            { st with rate_limit := R } := by
          rw [rl_is_locked_snd]
          split
          · exact ⟨st.rate_limit, rfl⟩
          · exact ⟨_, rfl⟩
        simp [handle_msg, hg, hR, sessionInv, hInv]
  · simp [PairingState.clear_active, sessionInv]
  · unfold PairingState.revoke_device PairingState.clear_active
    by_cases hD : st.active_device_id = some d <;> simp [hD, sessionInv, hInv]
  · unfold watchdog_step PairingState.clear_active
    split <;> simp [sessionInv, hInv]
  · intro h
    simp [sessionInv, mark_seen_active, mark_seen_last_seen, h]

/-- C1, witness: the amended preservation statement evaluated on a state
with an active session for device A that was last seen at time 1. -/
theorem C1_session_invariant_amended_witness :
    sessionInv (PairingState.mk "123456" 0 (some "A") (some 7) (some 1)
      ⟨[]⟩ []) ∧
    (sessionInv ((handle_msg concreteHash "999999" "TOK" (.ok .cmdReply)
      (some 7) 2 2 (.auth "B" "tok") ⟨true, some "A"⟩
      (PairingState.mk "123456" 0 (some "A") (some 7) (some 1) ⟨[]⟩ [])).2.2) ∧
    sessionInv ((handle_msg concreteHash "999999" "TOK" (.ok .cmdReply)
      (some 7) 2 2 (.pair "123456" "B" none) ⟨true, some "A"⟩
      (PairingState.mk "123456" 0 (some "A") (some 7) (some 1) ⟨[]⟩ [])).2.2) ∧
    sessionInv (PairingState.mk "123456" 0 (some "A") (some 7) (some 1)
      ⟨[]⟩ []).clear_active ∧
    sessionInv ((PairingState.mk "123456" 0 (some "A") (some 7) (some 1)
      ⟨[]⟩ []).revoke_device "B") ∧
    sessionInv (watchdog_step (PairingState.mk "123456" 0 (some "A") (some 7)
      (some 1) ⟨[]⟩ []) 2) ∧
    ((PairingState.mk "123456" 0 (some "A") (some 7) (some 1)
      ⟨[]⟩ []).active_device_id.isSome = true →
      sessionInv ((PairingState.mk "123456" 0 (some "A") (some 7) (some 1)
        ⟨[]⟩ []).mark_seen 2 2))) :=
  ⟨by decide,
   C1_session_invariant_amended concreteHash "999999" "TOK" (.ok .cmdReply)
     (some 7) ⟨true, some "A"⟩
     (PairingState.mk "123456" 0 (some "A") (some 7) (some 1) ⟨[]⟩ [])
     2 2 "B" "tok" "123456" none (by decide)⟩

/-- C2, amended: on a device-control command from a connection that is
locally Authenticated with claimed device id me, the executor's reply is
returned, and the connection is demoted to Unauthenticated exactly when
the authority's active session names a different device; in particular,
when the active device id is none (for example after the watchdog
expired the session) the connection is not demoted and keeps its
Authenticated state. -/
theorem C2_revalidation_amended (sha : String → String) (gc gt : String)
    (v : Reply) (me : String) (conn : ConnState) (st : PairingState)
    (rip : Option IpAddr) (now : Nat) (unow : Int)
    (hAuth : conn.authenticated = true)
    (hMe : conn.authed_device_id = some me) :
    ((handle_msg sha gc gt (.ok v) rip now unow .cmd conn st).1 = v) ∧
    ((handle_msg sha gc gt (.ok v) rip now unow .cmd conn
        st).2.1.authenticated = false ↔
      ∃ a, st.active_device_id = some a ∧ a ≠ me) ∧
    (st.active_device_id = none →
      (handle_msg sha gc gt (.ok v) rip now unow .cmd conn st).2.1 = conn) := by
  rcases ha : st.active_device_id with _ | a
  · simp [handle_msg, revalidate, hAuth, hMe, mark_seen_active, ha]
  · by_cases hme : a = me
    · subst hme
      simp [handle_msg, revalidate, hAuth, hMe, mark_seen_active, ha]
    · simp [handle_msg, revalidate, hAuth, hMe, mark_seen_active, ha, hme]

/-- C2, witness: the amended re-validation statement evaluated on a
connection authenticated as device A while the authority's active
session is held by device B. -/
theorem C2_revalidation_amended_witness :
    (⟨true, some "A"⟩ : ConnState).authenticated = true ∧
    (⟨true, some "A"⟩ : ConnState).authed_device_id = some "A" ∧
    (((handle_msg concreteHash "999999" "TOK" (.ok .cmdReply) (some 7) 2 2
        .cmd ⟨true, some "A"⟩
        (PairingState.mk "123456" 0 (some "B") (some 9) (some 1)
          ⟨[]⟩ [])).1 = Reply.cmdReply) ∧
    ((handle_msg concreteHash "999999" "TOK" (.ok .cmdReply) (some 7) 2 2
        .cmd ⟨true, some "A"⟩
        (PairingState.mk "123456" 0 (some "B") (some 9) (some 1)
          ⟨[]⟩ [])).2.1.authenticated = false ↔
      ∃ a, (PairingState.mk "123456" 0 (some "B") (some 9) (some 1)
          ⟨[]⟩ []).active_device_id = some a ∧ a ≠ "A") ∧
    ((PairingState.mk "123456" 0 (some "B") (some 9) (some 1)
        ⟨[]⟩ []).active_device_id = none →
      (handle_msg concreteHash "999999" "TOK" (.ok .cmdReply) (some 7) 2 2
        .cmd ⟨true, some "A"⟩
        (PairingState.mk "123456" 0 (some "B") (some 9) (some 1)
          ⟨[]⟩ [])).2.1 = ⟨true, some "A"⟩)) :=
  ⟨rfl, rfl,
   C2_revalidation_amended concreteHash "999999" "TOK" Reply.cmdReply "A"
     ⟨true, some "A"⟩
     (PairingState.mk "123456" 0 (some "B") (some 9) (some 1) ⟨[]⟩ [])
     (some 7) 2 2 rfl rfl⟩

/-- C3, amended: in the spec scenario (successful pairing at time 1
which resets the rate-limit entry for the source, then five wrong-token
auth messages within the rolling window), the reply to the fifth wrong
auth is the invalid-token auth error and it is the fifth failure that
sets the lockout (until time 36); the next auth — even with the correct
token — is answered rate_limited with the remaining 29 seconds, and an
auth with the correct token succeeds with auth_ok once the lockout
window has elapsed. -/
theorem C3_scenario_amended (sha : String → String) (T : String)
    (h : sha "wrong" ≠ sha T) :
    (c3Pair sha T).1 = Reply.pairingOk T ∧
    (c3A5 sha T).1 = Reply.authError "invalid_token" ∧
    findEntry 7 (c3A5 sha T).2.2.rate_limit =
      some (RateLimitEntry.mk 1 5 (some 36)) ∧
    (c3A6 sha T).1 = Reply.rateLimited "auth" 29 ∧
    (c3A7 sha T).1 = Reply.authOk := by
  have hp : c3Pair sha T = (Reply.pairingOk T, ⟨true, some "A"⟩,
      ⟨"123456", 0, some "A", some 7, some 1,
        ⟨[("A", ⟨none, sha T, 1, 1⟩)]⟩, [(7, ⟨1, 0, none⟩)]⟩) := by
    unfold c3Pair PairingState.new
    simp [handle_msg, PairingState.rl_is_locked, findEntry, RateLimitEntry.new,
      RateLimitEntry.is_locked, PairingState.is_expired, PAIRING_TTL,
      PairingState.rl_register_success, RateLimitEntry.register_success,
      PairingState.upsert_authorized, insertEntry, PairingState.mark_seen,
      revalidate]
  have h1 : c3A1 sha T = (Reply.authError "invalid_token", ⟨false, none⟩,
      ⟨"123456", 0, some "A", some 7, some 1,
        ⟨[("A", ⟨none, sha T, 1, 1⟩)]⟩, [(7, ⟨1, 1, none⟩)]⟩) := by
    unfold c3A1 c3Auth
    rw [hp]
    simp [handle_msg, PairingState.rl_is_locked, findEntry,
      RateLimitEntry.is_locked, PairingState.is_authorized, Ne.symm h,
      PairingState.rl_register_failure, RateLimitEntry.register_failure,
      RL_WINDOW, RL_MAX_ATTEMPTS, RL_LOCKOUT, insertEntry, revalidate]
  have h2 : c3A2 sha T = (Reply.authError "invalid_token", ⟨false, none⟩,
      ⟨"123456", 0, some "A", some 7, some 1,
        ⟨[("A", ⟨none, sha T, 1, 1⟩)]⟩, [(7, ⟨1, 2, none⟩)]⟩) := by
    unfold c3A2 c3Auth
    rw [h1]
    simp [handle_msg, PairingState.rl_is_locked, findEntry,
      RateLimitEntry.is_locked, PairingState.is_authorized, Ne.symm h,
      PairingState.rl_register_failure, RateLimitEntry.register_failure,
      RL_WINDOW, RL_MAX_ATTEMPTS, RL_LOCKOUT, insertEntry, revalidate]
  have h3 : c3A3 sha T = (Reply.authError "invalid_token", ⟨false, none⟩,
      ⟨"123456", 0, some "A", some 7, some 1,
        ⟨[("A", ⟨none, sha T, 1, 1⟩)]⟩, [(7, ⟨1, 3, none⟩)]⟩) := by
    unfold c3A3 c3Auth
    rw [h2]
    simp [handle_msg, PairingState.rl_is_locked, findEntry,
      RateLimitEntry.is_locked, PairingState.is_authorized, Ne.symm h,
      PairingState.rl_register_failure, RateLimitEntry.register_failure,
      RL_WINDOW, RL_MAX_ATTEMPTS, RL_LOCKOUT, insertEntry, revalidate]
  have h4 : c3A4 sha T = (Reply.authError "invalid_token", ⟨false, none⟩,
      ⟨"123456", 0, some "A", some 7, some 1,
        ⟨[("A", ⟨none, sha T, 1, 1⟩)]⟩, [(7, ⟨1, 4, none⟩)]⟩) := by
    unfold c3A4 c3Auth
    rw [h3]
    simp [handle_msg, PairingState.rl_is_locked, findEntry,
      RateLimitEntry.is_locked, PairingState.is_authorized, Ne.symm h,
      PairingState.rl_register_failure, RateLimitEntry.register_failure,
      RL_WINDOW, RL_MAX_ATTEMPTS, RL_LOCKOUT, insertEntry, revalidate]
  have h5 : c3A5 sha T = (Reply.authError "invalid_token", ⟨false, none⟩,
      ⟨"123456", 0, some "A", some 7, some 1,
        ⟨[("A", ⟨none, sha T, 1, 1⟩)]⟩, [(7, ⟨1, 5, some 36⟩)]⟩) := by
    unfold c3A5 c3Auth
    rw [h4]
    simp [handle_msg, PairingState.rl_is_locked, findEntry,
      RateLimitEntry.is_locked, PairingState.is_authorized, Ne.symm h,
      PairingState.rl_register_failure, RateLimitEntry.register_failure,
      RL_WINDOW, RL_MAX_ATTEMPTS, RL_LOCKOUT, insertEntry, revalidate]
  have h6 : c3A6 sha T = (Reply.rateLimited "auth" 29, ⟨false, none⟩,
      ⟨"123456", 0, some "A", some 7, some 1,
        ⟨[("A", ⟨none, sha T, 1, 1⟩)]⟩, [(7, ⟨1, 5, some 36⟩)]⟩) := by
    unfold c3A6 c3Auth
    rw [h5]
    simp [handle_msg, PairingState.rl_is_locked, findEntry,
      RateLimitEntry.is_locked, RateLimitEntry.remaining_lockout_secs,
      revalidate]
  have h7 : (c3A7 sha T).1 = Reply.authOk := by
    unfold c3A7 c3Auth
    rw [h6]
    simp [handle_msg, PairingState.rl_is_locked, findEntry,
      RateLimitEntry.is_locked, PairingState.is_authorized,
      PairingState.rl_register_success, RateLimitEntry.register_success,
      PairingState.mark_seen, insertEntry, revalidate]
  refine ⟨by rw [hp], by rw [h5], by rw [h5]; simp [findEntry], by rw [h6], h7⟩

/-- C3, witness: the amended rate-limit scenario evaluated with the
concrete stand-in hash and the token TOK. -/
theorem C3_scenario_amended_witness :
    concreteHash "wrong" ≠ concreteHash "TOK" ∧
    ((c3Pair concreteHash "TOK").1 = Reply.pairingOk "TOK" ∧
    (c3A5 concreteHash "TOK").1 = Reply.authError "invalid_token" ∧
    findEntry 7 (c3A5 concreteHash "TOK").2.2.rate_limit =
      some (RateLimitEntry.mk 1 5 (some 36)) ∧
    (c3A6 concreteHash "TOK").1 = Reply.rateLimited "auth" 29 ∧
    (c3A7 concreteHash "TOK").1 = Reply.authOk) :=
  ⟨by decide, C3_scenario_amended concreteHash "TOK" (by decide)⟩

end FossDeck
